import Mathlib

/-!
Verification of `src/imdb_scraper.py` (IMDbScraper): a shallow embedding of
the two scrape pipelines (`scrape_top_movies`, `scrape_by_genre`) and the CSV
export (`export_to_csv`), with theorems checking the specification's claims.

The parsed HTML document is modelled as a tree of nodes; BeautifulSoup's
`find_all(tag, class_, limit)` / `find(tag, class_)` become document-order
searches over the descendant list.  Python dictionaries become ordered
association lists of string pairs, so that the key set of each produced
record is observable.  A Python expression that may raise is modelled with
`Option` (an `AttributeError` from calling `.find`/`.text` on `None`) or with
an explicit result type carrying the exception name (`PyResult`).  The
network fetch is a parameter `fetchPage : String → Except TransportError Node`
since the transport is an external collaborator.
-/

/-- One element of the parsed markup tree: tag name, CSS class list,
text content (`.text` in BeautifulSoup), and child elements. -/
inductive Node : Type where
  | mk (tag : String) (classes : List String) (text : String) (children : List Node)

def Node.tag : Node → String
  | .mk t _ _ _ => t

def Node.classes : Node → List String
  | .mk _ c _ _ => c

def Node.text : Node → String
  | .mk _ _ s _ => s

def Node.children : Node → List Node
  | .mk _ _ _ ch => ch

mutual

/-- All descendants of a node in document (pre)order, excluding the node
itself, as BeautifulSoup's searches traverse them. -/
def Node.descendants : Node → List Node
  | .mk _ _ _ ch => descendantsOfList ch

def descendantsOfList : List Node → List Node
  | [] => []
  | n :: ns => n :: (Node.descendants n ++ descendantsOfList ns)

end

/-- Whether a node matches a BeautifulSoup query `find(name, class_=cls)`:
the tag name must be equal, and when a class string is given it must equal
one of the node's classes or the whole space-joined class attribute (the
latter is how a multi-class string such as "ratingColumn imdbRating"
matches). -/
def matchesQuery (name : String) (cls : Option String) (n : Node) : Bool :=
  n.tag == name &&
    match cls with
    | none => true
    | some c => n.classes.contains c || c == String.intercalate " " n.classes

/-- `find_all(name, class_=cls)` without a limit: every matching descendant
in document order. -/
def Node.findAllQ (n : Node) (name : String) (cls : Option String) : List Node :=
  (Node.descendants n).filter (matchesQuery name cls)

/-- `find(name, class_=cls)`: the first matching descendant, or `none`. -/
def Node.findQ (n : Node) (name : String) (cls : Option String) : Option Node :=
  (n.findAllQ name cls).head?

/-- Python `str.strip(chars)`: remove every leading and every trailing
character that belongs to `cs` (not merely one balanced pair). -/
def stripChars (cs : List Char) (s : String) : String :=
  String.mk (((s.toList.dropWhile (cs.contains ·)).reverse.dropWhile (cs.contains ·)).reverse)

/-- A movie record: the Python dict, as an ordered association list. -/
abbrev Rec : Type := List (String × String)

/-- `d.get(k)` on a record: value of the first pair with key `k`. -/
def getField (r : Rec) (k : String) : Option String :=
  (r.find? (fun p => p.1 == k)).map (fun p => p.2)

/-- The keys of a record, in insertion order. -/
def recKeys (r : Rec) : List String :=
  r.map (fun p => p.1)

/-- A transport failure raised by `requests.get` (all are subclasses of
`requests.RequestException`). -/
inductive TransportError : Type where
  | connectionError
  | timeout
  | httpError
deriving DecidableEq

def BASE_URL : String := "https://www.imdb.com"

/-- URL requested by `scrape_top_movies`. -/
def topUrl : String := BASE_URL ++ "/chart/top250/"

/-- URL requested by `scrape_by_genre`: note the genre is lowercased. -/
def genreUrl (genre : String) : String :=
  BASE_URL ++ "/search/title/?genres=" ++ genre.toLower ++ "&sort=user_rating,-popularity"

/-- `row.find('td', class_='titleColumn').find('a').text`; `none` models the
`AttributeError` raised when a `find` returns `None`. -/
def topTitle (row : Node) : Option String := do
  let td ← row.findQ "td" (some "titleColumn")
  let a ← td.findQ "a" none
  pure a.text

/-- `row.find('td', class_='titleColumn').find('span').text.strip('()')`. -/
def topYear (row : Node) : Option String := do
  let td ← row.findQ "td" (some "titleColumn")
  let sp ← td.findQ "span" none
  pure (stripChars ['(', ')'] sp.text)

/-- `row.find('td', class_='ratingColumn imdbRating').find('strong').text`. -/
def topRating (row : Node) : Option String := do
  let td ← row.findQ "td" (some "ratingColumn imdbRating")
  let st ← td.findQ "strong" none
  pure st.text

/-- The body of the per-row `try` block in `scrape_top_movies`: the three
field extractions in program order; any failure aborts the whole row
(the `except` clause logs and continues), so no partial record is built. -/
def extractTop (row : Node) : Option Rec :=
  match topTitle row with
  | none => none
  | some title =>
    match topYear row with
    | none => none
    | some year =>
      match topRating row with
      | none => none
      | some rating => some [("title", title), ("year", year), ("rating", rating)]

/-- The `for row in rows` loop of `scrape_top_movies`: append the record on
success, skip the row on failure, keep going. -/
def collectTop : List Node → List Rec → List Rec
  | [], acc => acc
  | row :: rows, acc =>
    match extractTop row with
    | some m => collectTop rows (acc ++ [m])
    | none => collectTop rows acc

/-- `IMDbScraper.scrape_top_movies(limit)`: fetch `topUrl`; on a
`requests.RequestException` log and return the (empty) accumulator;
otherwise run the loop over `soup.find_all('tr', limit=limit)`. -/
def scrape_top_movies (fetchPage : String → Except TransportError Node) (limit : Nat) : List Rec :=
  match fetchPage topUrl with
  | .error _ => []
  | .ok soup => collectTop ((soup.findAllQ "tr" none).take limit) []

/-- The body of the per-item `try` block in `scrape_by_genre`, instrumented
with the list of sub-lookups actually attempted (the `.find('a')` on the
title container and the `.find('strong')` on the rating container).  The
two container lookups always run; the `if title_div and rating_div` guard
runs the sub-lookups only when both containers are present.  A `None`
sub-lookup raises `AttributeError` at `.text`, caught by the inner
`except`, so the item yields nothing. -/
def extractGenreTr (genre : String) (item : Node) : Option Rec × List String :=
  match item.findQ "h3" (some "lister-item-header"), item.findQ "div" (some "ratings-bar") with
  | some title_div, some rating_div =>
    match title_div.findQ "a" none with
    | none => (none, ["title_div.find-a"])
    | some a =>
      match rating_div.findQ "strong" none with
      | none => (none, ["title_div.find-a", "rating_div.find-strong"])
      | some st =>
        (some [("title", a.text), ("genre", genre), ("rating", st.text)],
         ["title_div.find-a", "rating_div.find-strong"])
  | _, _ => (none, [])

/-- The record (or nothing) one genre item yields. -/
def extractGenre (genre : String) (item : Node) : Option Rec :=
  (extractGenreTr genre item).1

/-- The `for item in items` loop of `scrape_by_genre`. -/
def collectGenre (genre : String) : List Node → List Rec → List Rec
  | [], acc => acc
  | item :: items, acc =>
    match extractGenre genre item with
    | some m => collectGenre genre items (acc ++ [m])
    | none => collectGenre genre items acc

/-- `IMDbScraper.scrape_by_genre(genre)`: fetch the genre search URL (with
the genre lowercased); on any exception log and return the (empty)
accumulator; otherwise run the loop over
`soup.find_all('div', class_='lister-item', limit=50)`. -/
def scrape_by_genre (fetchPage : String → Except TransportError Node) (genre : String) : List Rec :=
  match fetchPage (genreUrl genre) with
  | .error _ => []
  | .ok soup => collectGenre genre ((soup.findAllQ "div" (some "lister-item")).take 50) []

/-- Outcome of a Python call: returned normally, or raised the named
exception to the caller. -/
inductive PyResult (α : Type) : Type where
  | ok (a : α)
  | exc (excName : String)
deriving DecidableEq

/-- The CSV header / `DictWriter(fieldnames=...)` of `export_to_csv`. -/
def fieldnames : List String := ["title", "year", "rating"]

/-- `DictWriter`'s conversion of one dict to a row: a key outside
`fieldnames` raises `ValueError`; a missing key falls back to the rest
value `""`. -/
def dictToRow (r : Rec) : PyResult (List String) :=
  if r.all (fun p => fieldnames.contains p.1) then
    .ok (fieldnames.map (fun k => (getField r k).getD ""))
  else
    .exc "ValueError"

/-- `writer.writerows(movies)`: the rows written before any failure,
and the exception name if one was raised. -/
def writerows : List Rec → List (List String) × Option String
  | [] => ([], none)
  | r :: rs =>
    match dictToRow r with
    | .ok row =>
      let rest := writerows rs
      (row :: rest.1, rest.2)
    | .exc e => ([], some e)

/-- What one call to `export_to_csv` did: whether it returned or raised,
the file content written (`none` = no file was opened, created, truncated
or modified at the path), and the log lines it emitted. -/
structure ExportOutcome : Type where
  result : PyResult Unit
  fileWritten : Option (String × List (List String))
  log : List String
deriving DecidableEq

/-- `IMDbScraper.export_to_csv(movies, filename)`.  `openOk` models the
filesystem: `false` means `open(filename, 'w', ...)` raises `IOError`,
which the function catches and logs.  A `ValueError` from `DictWriter`
(a record key outside `fieldnames`) matches no `except IOError` clause
and propagates to the caller. -/
def export_to_csv (movies : List Rec) (filename : String := "imdb_movies.csv")
    (openOk : Bool := true) : ExportOutcome :=
  if movies.isEmpty then
    { result := .ok (), fileWritten := none, log := ["warning: No movies to export"] }
  else if openOk then
    match writerows movies with
    | (rows, none) =>
      { result := .ok ()
        fileWritten := some (filename, fieldnames :: rows)
        log := ["info: Exported " ++ toString movies.length ++ " movies to " ++ filename] }
    | (rows, some e) =>
      { result := .exc e
        fileWritten := some (filename, fieldnames :: rows)
        log := [] }
  else
    { result := .ok (), fileWritten := none, log := ["error: File write error"] }

/-- Stated from the specification's words for comparison with the code
(claim C6): strip exactly one pair of enclosing parenthesis characters
from the year text, when present. -/
def stripOnePair (s : String) : String :=
  match s.toList with
  | [] => s
  | c :: cs =>
    if c = '(' ∧ cs.getLast? = some ')' then
      String.mk (cs.dropLast)
    else
      s

/-- A leaf element with no class and no children. -/
def leaf (tag text : String) : Node :=
  .mk tag [] text []

/-- A top-chart table row as `scrape_top_movies` expects it: a
`td.titleColumn` containing the title anchor and the year span, and a
`td.ratingColumn.imdbRating` containing the rating strong. -/
def mkTopRow (title year rating : String) : Node :=
  .mk "tr" [] "" [
    .mk "td" ["titleColumn"] "" [leaf "a" title, leaf "span" year],
    .mk "td" ["ratingColumn", "imdbRating"] "" [leaf "strong" rating]]

/-- A top-chart row whose rating cell has no strong sub-element. -/
def mkTopRowNoRating (title year : String) : Node :=
  .mk "tr" [] "" [
    .mk "td" ["titleColumn"] "" [leaf "a" title, leaf "span" year],
    .mk "td" ["ratingColumn", "imdbRating"] "" []]

/-- A genre search result item as `scrape_by_genre` expects it. -/
def mkGenreItem (title rating : String) : Node :=
  .mk "div" ["lister-item"] "" [
    .mk "h3" ["lister-item-header"] "" [leaf "a" title],
    .mk "div" ["ratings-bar"] "" [leaf "strong" rating]]

/-- A genre item with a title container but no rating container. -/
def mkGenreItemNoRatingBar (title : String) : Node :=
  .mk "div" ["lister-item"] "" [
    .mk "h3" ["lister-item-header"] "" [leaf "a" title]]

/-- A document whose rows are the given nodes. -/
def mkPage (rows : List Node) : Node :=
  .mk "html" [] "" rows

/-- A fetch that always succeeds with the given page. -/
def fetchOk (page : Node) : String → Except TransportError Node :=
  fun _ => .ok page

/-- A fetch that always raises a connection error. -/
def fetchFail : String → Except TransportError Node :=
  fun _ => .error .connectionError

/-! Helper lemmas shared by the claim theorems. -/

theorem collectTop_eq (rows : List Node) :
    ∀ acc : List Rec, collectTop rows acc = acc ++ rows.filterMap extractTop := by
  induction rows with
  | nil => intro acc; simp [collectTop]
  | cons row rows ih =>
    intro acc
    cases h : extractTop row with
    | none => simp [collectTop, h, ih]
    | some m => simp [collectTop, h, ih]

theorem collectGenre_eq (g : String) (items : List Node) :
    ∀ acc : List Rec, collectGenre g items acc = acc ++ items.filterMap (extractGenre g) := by
  induction items with
  | nil => intro acc; simp [collectGenre]
  | cons item items ih =>
    intro acc
    cases h : extractGenre g item with
    | none => simp [collectGenre, h, ih]
    | some m => simp [collectGenre, h, ih]

theorem extractTop_keys (row : Node) (r : Rec) (h : extractTop row = some r) :
    recKeys r = ["title", "year", "rating"] := by
  unfold extractTop at h
  cases h1 : topTitle row <;> rw [h1] at h
  · exact absurd h (by simp)
  cases h2 : topYear row <;> rw [h2] at h
  · exact absurd h (by simp)
  cases h3 : topRating row <;> rw [h3] at h
  · exact absurd h (by simp)
  cases h
  rfl

theorem extractGenre_some (g : String) (item : Node) (r : Rec) (h : extractGenre g item = some r) :
    recKeys r = ["title", "genre", "rating"] ∧ getField r "genre" = some g := by
  unfold extractGenre extractGenreTr at h
  split at h
  · rename_i title_div rating_div
    split at h
    · exact absurd h (by simp)
    split at h
    · exact absurd h (by simp)
    simp only at h
    cases h
    exact ⟨rfl, rfl⟩
  · exact absurd h (by simp)

theorem writerows_none (movies : List Rec)
    (h : ∀ r ∈ movies, ∀ p ∈ r, fieldnames.contains p.1 = true) :
    (writerows movies).2 = none := by
  induction movies with
  | nil => rfl
  | cons m ms ih =>
    have hm : dictToRow m = .ok (fieldnames.map (fun k => (getField m k).getD "")) := by
      unfold dictToRow
      rw [if_pos]
      exact List.all_eq_true.mpr (fun p hp => h m (by simp) p hp)
    simp only [writerows, hm]
    exact ih (fun r hr p hp => h r (by simp [hr]) p hp)

/-! Fixture pages used by concrete counterexamples and witnesses. -/

/-- A page with one structurally complete row whose title anchor text is
empty. -/
def pageEmptyTitle : Node := mkPage [mkTopRow "" "(1994)" "9.2"]

/-- A page with one well-formed top-chart row. -/
def pageOneGood : Node := mkPage [mkTopRow "The Godfather" "(1972)" "9.2"]

/-- A page with one well-formed genre item. -/
def genrePageOneGood : Node := mkPage [mkGenreItem "Die Hard" "8.2"]

/-- A top-chart row whose year span is wrapped in two pairs of
parentheses. -/
def rowDoubledParens : Node := mkTopRow "The Shawshank Redemption" "((1994))" "9.3"

/-- A top-chart row whose title and rating texts carry surrounding
whitespace. -/
def rowPadded : Node := mkTopRow " The Matrix " "(1999)" " 8.7 "

/-! Claim theorems. -/

/-- Claim C1 (amended): for every limit N and every fetched page,
`scrape_top_movies(limit=N)` returns at most N records, and every record
has exactly the fields title, year and rating — their values, however, are
the page's text content and may be empty. -/
theorem c1_cap_and_record_fields (fetchPage : String → Except TransportError Node)
    (limit : Nat) :
    (scrape_top_movies fetchPage limit).length ≤ limit ∧
    ∀ r ∈ scrape_top_movies fetchPage limit, recKeys r = ["title", "year", "rating"] := by
  unfold scrape_top_movies
  cases h : fetchPage topUrl with
  | error e => simp
  | ok soup =>
    simp only [collectTop_eq, List.nil_append]
    constructor
    · exact le_trans (List.length_filterMap_le _ _) (List.length_take_le _ _)
    · intro r hr
      obtain ⟨row, _, hrow⟩ := List.mem_filterMap.mp hr
      exact extractTop_keys row r hrow

/-- Claim C1, witness: the amended theorem applied to a concrete page. -/
theorem c1_cap_and_record_fields_witness :
    (scrape_top_movies (fetchOk pageOneGood) 25).length ≤ 25 ∧
    recKeys [("title", "The Godfather"), ("year", "1972"), ("rating", "9.2")] =
      ["title", "year", "rating"] :=
  ⟨(c1_cap_and_record_fields (fetchOk pageOneGood) 25).1,
   (c1_cap_and_record_fields (fetchOk pageOneGood) 25).2
     [("title", "The Godfather"), ("year", "1972"), ("rating", "9.2")] (by decide)⟩

/-- Claim C1, counterexample to the claim as stated: a page whose title
anchor has empty text yields a record whose title value is the empty
string, so not every returned record has non-empty field values. -/
theorem c1_nonempty_counterexample :
    scrape_top_movies (fetchOk pageEmptyTitle) 25 =
      [[("title", ""), ("year", "1994"), ("rating", "9.2")]] ∧
    ¬ (∀ r ∈ scrape_top_movies (fetchOk pageEmptyTitle) 25,
        getField r "title" ≠ some "" ∧ getField r "year" ≠ some "" ∧
        getField r "rating" ≠ some "") :=
  ⟨by decide, by decide⟩

/-- Claim C2: for every genre string g and every fetched page,
`scrape_by_genre(g)` returns at most 50 records and every record's genre
field is the caller's string g, capitalization preserved (the lowercasing
in `genreUrl` affects only the request URL). -/
theorem c2_genre_cap_and_echo (fetchPage : String → Except TransportError Node)
    (g : String) :
    (scrape_by_genre fetchPage g).length ≤ 50 ∧
    ∀ r ∈ scrape_by_genre fetchPage g, getField r "genre" = some g := by
  unfold scrape_by_genre
  cases h : fetchPage (genreUrl g) with
  | error e => simp
  | ok soup =>
    simp only [collectGenre_eq, List.nil_append]
    constructor
    · exact le_trans (List.length_filterMap_le _ _) (List.length_take_le _ _)
    · intro r hr
      obtain ⟨item, _, hitem⟩ := List.mem_filterMap.mp hr
      exact (extractGenre_some g item r hitem).2

/-- Claim C2, witness: the theorem applied to a concrete page and the
mixed-case genre "AcTion". -/
theorem c2_genre_cap_and_echo_witness :
    (scrape_by_genre (fetchOk genrePageOneGood) "AcTion").length ≤ 50 ∧
    getField [("title", "Die Hard"), ("genre", "AcTion"), ("rating", "8.2")] "genre" =
      some "AcTion" :=
  ⟨(c2_genre_cap_and_echo (fetchOk genrePageOneGood) "AcTion").1,
   (c2_genre_cap_and_echo (fetchOk genrePageOneGood) "AcTion").2
     [("title", "Die Hard"), ("genre", "AcTion"), ("rating", "8.2")] (by decide)⟩

/-- Claim C3: in `scrape_top_movies`, a row in which any of the three field
lookups fails contributes nothing (no partial record), the accumulator is
unchanged by that row, and the loop goes on; in general the loop returns
the previously accumulated records followed by the records of exactly the
rows whose extraction fully succeeded. -/
theorem c3_failed_row_skipped (row : Node) (rows : List Node) (acc : List Rec) :
    ((topTitle row = none ∨ topYear row = none ∨ topRating row = none) →
      extractTop row = none ∧ collectTop (row :: rows) acc = collectTop rows acc) ∧
    collectTop rows acc = acc ++ rows.filterMap extractTop := by
  constructor
  · intro h
    have hnone : extractTop row = none := by
      cases h1 : topTitle row <;> cases h2 : topYear row <;> cases h3 : topRating row <;>
        simp_all [extractTop]
    exact ⟨hnone, by simp [collectTop, hnone]⟩
  · exact collectTop_eq rows acc

/-- Claim C3, witness: a concrete row lacking the rating strong element is
skipped while the previously collected record is kept. -/
theorem c3_failed_row_skipped_witness :
    extractTop (mkTopRowNoRating "Vertigo" "(1958)") = none ∧
    collectTop [mkTopRowNoRating "Vertigo" "(1958)"]
        [[("title", "M"), ("year", "1931"), ("rating", "8.3")]] =
      collectTop [] [[("title", "M"), ("year", "1931"), ("rating", "8.3")]] :=
  (c3_failed_row_skipped (mkTopRowNoRating "Vertigo" "(1958)") []
      [[("title", "M"), ("year", "1931"), ("rating", "8.3")]]).1
    (Or.inr (Or.inr (by decide)))

/-- Claim C4 (amended): `export_to_csv` returns normally — whatever the
outcome of the file write — for every batch whose records carry only keys
among the header's field names; but a record with a key outside
`fieldnames` makes `DictWriter` raise a `ValueError`, which no
`except IOError` clause catches. -/
theorem c4_wellformed_export_returns (movies : List Rec) (filename : String) (openOk : Bool)
    (h : ∀ r ∈ movies, ∀ p ∈ r, fieldnames.contains p.1 = true) :
    (export_to_csv movies filename openOk).result = .ok () := by
  unfold export_to_csv
  by_cases hm : movies.isEmpty
  · simp [hm]
  · cases openOk with
    | false => simp [hm]
    | true =>
      have hw := writerows_none movies h
      rcases hww : writerows movies with ⟨rows, err⟩
      rw [hww] at hw
      simp only at hw
      subst hw
      simp [hm, hww]

/-- Claim C4, witness: a concrete well-shaped batch exported with a
succeeding write. -/
theorem c4_wellformed_export_returns_witness :
    (export_to_csv [[("title", "Alien"), ("year", "1979"), ("rating", "8.5")]]
        "out.csv" true).result = .ok () :=
  c4_wellformed_export_returns [[("title", "Alien"), ("year", "1979"), ("rating", "8.5")]]
    "out.csv" true (by decide)

/-- Claim C4, counterexample to the claim as stated: a genre-variant record
(whose keys are title, genre, rating) makes the export raise `ValueError`
to its caller, because `DictWriter` rejects the key "genre" and only
`IOError` is caught. -/
theorem c4_shape_counterexample :
    (export_to_csv [[("title", "Heat"), ("genre", "Action"), ("rating", "8.3")]]
        "movies.csv" true).result = PyResult.exc "ValueError" := by
  decide

/-- Claim C5: if the HTTP GET for either operation's URL raises a transport
error, the operation returns the empty list (the single attempt is caught;
the model's totality is the absence of any escaping exception). -/
theorem c5_transport_error_yields_empty (fetchPage : String → Except TransportError Node)
    (limit : Nat) (g : String) :
    (∀ e, fetchPage topUrl = .error e → scrape_top_movies fetchPage limit = []) ∧
    (∀ e, fetchPage (genreUrl g) = .error e → scrape_by_genre fetchPage g = []) := by
  constructor
  · intro e h
    simp [scrape_top_movies, h]
  · intro e h
    simp [scrape_by_genre, h]

/-- Claim C5, witness: a fetch that always raises a connection error makes
both operations return the empty list. -/
theorem c5_transport_error_yields_empty_witness :
    scrape_top_movies fetchFail 100 = [] ∧ scrape_by_genre fetchFail "Action" = [] :=
  ⟨(c5_transport_error_yields_empty fetchFail 100 "Action").1 .connectionError rfl,
   (c5_transport_error_yields_empty fetchFail 100 "Action").2 .connectionError rfl⟩

/-- Claim C6 (amended): the year field equals the span's text with every
leading and trailing parenthesis character removed (Python
`str.strip('()')`), not exactly one enclosing pair; on "(1994)" this
still yields "1994". -/
theorem c6_year_strips_all_parens (t y r : String) :
    extractTop (mkTopRow t y r) =
      some [("title", t), ("year", stripChars ['(', ')'] y), ("rating", r)] ∧
    stripChars ['(', ')'] "(1994)" = "1994" :=
  ⟨rfl, by decide⟩

/-- Claim C6, counterexample to "exactly one enclosing pair is removed": on
the year text "((1994))" the code strips both pairs and stores "1994",
while removing exactly one pair would store "(1994)". -/
theorem c6_one_pair_counterexample :
    extractTop rowDoubledParens =
      some [("title", "The Shawshank Redemption"), ("year", "1994"), ("rating", "9.3")] ∧
    stripOnePair "((1994))" = "(1994)" ∧
    ("1994" : String) ≠ "(1994)" :=
  ⟨by decide, by decide, by decide⟩

/-- Claim C7 (amended): stored field values are the source texts verbatim —
no whitespace trimming is applied anywhere; only the year value differs
from its source text, by parenthesis stripping. -/
theorem c7_values_stored_verbatim (t y r g t2 r2 : String) :
    extractTop (mkTopRow t y r) =
      some [("title", t), ("year", stripChars ['(', ')'] y), ("rating", r)] ∧
    extractGenre g (mkGenreItem t2 r2) =
      some [("title", t2), ("genre", g), ("rating", r2)] :=
  ⟨rfl, rfl⟩

/-- Claim C7, counterexample to the claim as stated: a title of " The
Matrix " and a rating of " 8.7 " are stored with their surrounding
whitespace intact (their first and last characters are the space
character). -/
theorem c7_trim_counterexample :
    scrape_top_movies (fetchOk (mkPage [rowPadded])) 100 =
      [[("title", " The Matrix "), ("year", "1999"), ("rating", " 8.7 ")]] ∧
    ¬ (∀ r ∈ scrape_top_movies (fetchOk (mkPage [rowPadded])) 100,
        ∀ p ∈ r, p.2.toList.head? ≠ some ' ' ∧ p.2.toList.getLast? ≠ some ' ') :=
  ⟨by decide, by decide⟩

/-- Claim C8: in `scrape_by_genre`, when either the title container or the
rating container is absent, the item yields nothing, no sub-lookup is
attempted on either container (the attempted-lookup trace is empty), and
the loop's accumulator passes over the item unchanged. -/
theorem c8_missing_container_skips_item (g : String) (item : Node)
    (h : item.findQ "h3" (some "lister-item-header") = none ∨
         item.findQ "div" (some "ratings-bar") = none) :
    extractGenreTr g item = (none, []) ∧
    ∀ (items : List Node) (acc : List Rec),
      collectGenre g (item :: items) acc = collectGenre g items acc := by
  have he : extractGenreTr g item = (none, []) := by
    rcases h1 : item.findQ "h3" (some "lister-item-header") with _ | td <;>
      rcases h2 : item.findQ "div" (some "ratings-bar") with _ | rd <;>
        simp_all [extractGenreTr]
  refine ⟨he, fun items acc => ?_⟩
  simp [collectGenre, extractGenre, he]

/-- Claim C8, witness: a concrete item with a title container but no
ratings bar yields nothing, with no sub-lookup attempted. -/
theorem c8_missing_container_skips_item_witness :
    extractGenreTr "Action" (mkGenreItemNoRatingBar "Up") = (none, []) ∧
    collectGenre "Action" [mkGenreItemNoRatingBar "Up", mkGenreItem "Die Hard" "8.2"] [] =
      collectGenre "Action" [mkGenreItem "Die Hard" "8.2"] [] :=
  ⟨(c8_missing_container_skips_item "Action" (mkGenreItemNoRatingBar "Up")
      (Or.inr rfl)).1,
   (c8_missing_container_skips_item "Action" (mkGenreItemNoRatingBar "Up")
      (Or.inr rfl)).2 [mkGenreItem "Die Hard" "8.2"] []⟩

/-- Claim C9: exporting an empty batch touches no file at all — the outcome
records no file action for any filename and any filesystem state — and
logs exactly the warning. -/
theorem c9_empty_batch_no_file (filename : String) (openOk : Bool) :
    export_to_csv [] filename openOk =
      { result := .ok (), fileWritten := none, log := ["warning: No movies to export"] } :=
  rfl

/-- Claim C10: every record in either operation's output has exactly its
variant's key set, and is exactly the record the extractor built (so
nothing modified it between construction and return). -/
theorem c10_record_key_sets (fetchPage : String → Except TransportError Node)
    (limit : Nat) (g : String) :
    (∀ r ∈ scrape_top_movies fetchPage limit,
      recKeys r = ["title", "year", "rating"] ∧ ∃ row, extractTop row = some r) ∧
    (∀ r ∈ scrape_by_genre fetchPage g,
      recKeys r = ["title", "genre", "rating"] ∧ ∃ item, extractGenre g item = some r) := by
  constructor
  · intro r hr
    unfold scrape_top_movies at hr
    cases h : fetchPage topUrl <;> rw [h] at hr <;> simp only [collectTop_eq, List.nil_append] at hr
    · simp at hr
    · obtain ⟨row, _, hrow⟩ := List.mem_filterMap.mp hr
      exact ⟨extractTop_keys row r hrow, row, hrow⟩
  · intro r hr
    unfold scrape_by_genre at hr
    cases h : fetchPage (genreUrl g) <;> rw [h] at hr <;>
      simp only [collectGenre_eq, List.nil_append] at hr
    · simp at hr
    · obtain ⟨item, _, hitem⟩ := List.mem_filterMap.mp hr
      exact ⟨(extractGenre_some g item r hitem).1, item, hitem⟩

/-- Claim C10, witness: the key sets of one concrete record from each
operation. -/
theorem c10_record_key_sets_witness :
    (recKeys [("title", "The Godfather"), ("year", "1972"), ("rating", "9.2")] =
        ["title", "year", "rating"] ∧
      ∃ row, extractTop row =
        some [("title", "The Godfather"), ("year", "1972"), ("rating", "9.2")]) ∧
    (recKeys [("title", "Die Hard"), ("genre", "Action"), ("rating", "8.2")] =
        ["title", "genre", "rating"] ∧
      ∃ item, extractGenre "Action" item =
        some [("title", "Die Hard"), ("genre", "Action"), ("rating", "8.2")]) :=
  ⟨(c10_record_key_sets (fetchOk pageOneGood) 25 "Action").1
     [("title", "The Godfather"), ("year", "1972"), ("rating", "9.2")] (by decide),
   (c10_record_key_sets (fetchOk genrePageOneGood) 25 "Action").2
     [("title", "Die Hard"), ("genre", "Action"), ("rating", "8.2")] (by decide)⟩
